import Mathlib

/-!
A shallow embedding of the stream-manager backend (`src/backend/main.py`):
the per-camera mode state machine (`StreamWorker.set_live` / `set_standby` /
`toggle`), its SSE notification fan-out (`subscribe` / `_notify`), the
`StreamManager` registry, the newline-delimited TCP command protocol
(`handle_tcp_client`), and the ffmpeg process supervisor (`FfmpegWorker`).

Python values flowing through the protocol (the results of `json.loads`)
are modelled by the inductive type `Json`; numeric literals keep their
source text, since the program never computes with them.  Uncaught Python
exceptions (`AttributeError` on a non-dict command, `TypeError` on an
unhashable key, `IndexError`) are modelled by `Option`/`none`: the
`handle_tcp_client` loop has no handler for them, so the connection dies.
-/

set_option maxRecDepth 8192

/-- A decoded structured value, as produced by `json.loads`.  A numeric
literal is kept as its raw text (the backend never arithmetically uses a
parsed number, it only formats it back into an error message). -/
inductive Json where
  | null : Json
  | bool : Bool → Json
  | num : String → Json
  | str : String → Json
  | arr : List Json → Json
  | obj : List (String × Json) → Json

/-- The four whitespace characters skipped between JSON tokens
(`json.loads` skips exactly space, tab, newline, carriage return). -/
def jsonWs (c : Char) : Bool :=
  c = ' ' || c = '\t' || c = '\n' || c = '\r'

/-- Drop leading JSON whitespace. -/
def skipWs : List Char → List Char
  | [] => []
  | c :: cs => if jsonWs c then skipWs cs else c :: cs

/-- Value of a hexadecimal digit, for `\uXXXX` string escapes. -/
def hexVal (c : Char) : Option Nat :=
  if '0' ≤ c ∧ c ≤ '9' then some (c.toNat - 48)
  else if 'a' ≤ c ∧ c ≤ 'f' then some (c.toNat - 87)
  else if 'A' ≤ c ∧ c ≤ 'F' then some (c.toNat - 55)
  else none

/-- Parse the body of a JSON string literal (the opening quote already
consumed), returning the decoded text and the remaining input.  Mirrors
the strict `json.loads` scanner: raw control characters are rejected,
escapes are the standard eight plus `\uXXXX`. -/
def parseStringBody (fuel : Nat) (cs : List Char) : Option (String × List Char) :=
  match fuel with
  | 0 => none
  | fuel + 1 =>
    match cs with
    | [] => none
    | '"' :: rest => some ("", rest)
    | '\\' :: e :: rest =>
      let cont : Char → List Char → Option (String × List Char) := fun c rs =>
        (parseStringBody fuel rs).map (fun p => (String.singleton c ++ p.1, p.2))
      match e with
      | '"' => cont '"' rest
      | '\\' => cont '\\' rest
      | '/' => cont '/' rest
      | 'b' => cont (Char.ofNat 8) rest
      | 'f' => cont (Char.ofNat 12) rest
      | 'n' => cont '\n' rest
      | 'r' => cont '\r' rest
      | 't' => cont '\t' rest
      | 'u' =>
        match rest with
        | h1 :: h2 :: h3 :: h4 :: rest2 =>
          match hexVal h1, hexVal h2, hexVal h3, hexVal h4 with
          | some a, some b, some c, some d =>
            cont (Char.ofNat (((a * 16 + b) * 16 + c) * 16 + d)) rest2
          | _, _, _, _ => none
        | _ => none
      | _ => none
    | c :: rest =>
      if c.toNat < 32 then none
      else (parseStringBody fuel rest).map (fun p => (String.singleton c ++ p.1, p.2))

/-- Match a literal keyword; return the rest of the input on success. -/
def takeLit : List Char → List Char → Option (List Char)
  | [], rest => some rest
  | _ :: _, [] => none
  | a :: ps, b :: rest => if a = b then takeLit ps rest else none

/-- Integer part of a JSON number: `0`, or a nonzero digit followed by
digits (`json.loads` rejects leading zeros). -/
def parseIntPart : List Char → Option (List Char × List Char)
  | [] => none
  | c :: cs =>
    if c = '0' then some ([c], cs)
    else if c.isDigit then
      some (c :: cs.takeWhile Char.isDigit, cs.dropWhile Char.isDigit)
    else none

/-- Optional fraction part `.digits`; an invalid fraction is simply left
unconsumed (as the `json.loads` number regex does). -/
def parseFrac : List Char → List Char × List Char
  | '.' :: cs =>
    (match cs.takeWhile Char.isDigit, cs.dropWhile Char.isDigit with
     | [], _ => ([], '.' :: cs)
     | ds, rest => ('.' :: ds, rest))
  | cs => ([], cs)

/-- Optional exponent part `e[+-]digits`; an invalid exponent is left
unconsumed. -/
def parseExp : List Char → List Char × List Char
  | e :: cs =>
    if e = 'e' ∨ e = 'E' then
      let sg : List Char × List Char :=
        match cs with
        | '+' :: r => (['+'], r)
        | '-' :: r => (['-'], r)
        | _ => ([], cs)
      match sg.2.takeWhile Char.isDigit, sg.2.dropWhile Char.isDigit with
      | [], _ => ([], e :: cs)
      | ds, rest => (e :: (sg.1 ++ ds), rest)
    else ([], e :: cs)
  | [] => ([], [])

/-- A JSON numeric literal, kept as raw text. -/
def parseNum (cs : List Char) : Option (Json × List Char) :=
  let sg : List Char × List Char :=
    match cs with
    | '-' :: rest => (['-'], rest)
    | _ => ([], cs)
  match parseIntPart sg.2 with
  | none => none
  | some (ip, cs2) =>
    let fp := parseFrac cs2
    let ep := parseExp fp.2
    some (Json.num (String.mk (sg.1 ++ ip ++ fp.1 ++ ep.1)), ep.2)

mutual

/-- Recursive-descent JSON value parser, fuelled by input length.
Faithful to `json.loads` on its accepted grammar, including the CPython
extensions `NaN`, `Infinity` and `-Infinity`. -/
def parseVal (fuel : Nat) (cs : List Char) : Option (Json × List Char) :=
  match fuel with
  | 0 => none
  | fuel + 1 =>
    match skipWs cs with
    | [] => none
    | '{' :: rest =>
      (match skipWs rest with
       | '}' :: rest2 => some (Json.obj [], rest2)
       | _ => parseMembers fuel rest [])
    | '[' :: rest =>
      (match skipWs rest with
       | ']' :: rest2 => some (Json.arr [], rest2)
       | _ => parseElems fuel rest [])
    | '"' :: rest =>
      (match parseStringBody (rest.length + 1) rest with
       | some (s, rest2) => some (Json.str s, rest2)
       | none => none)
    | c :: rest =>
      match takeLit "true".data (c :: rest) with
      | some r => some (Json.bool true, r)
      | none =>
      match takeLit "false".data (c :: rest) with
      | some r => some (Json.bool false, r)
      | none =>
      match takeLit "null".data (c :: rest) with
      | some r => some (Json.null, r)
      | none =>
      match takeLit "NaN".data (c :: rest) with
      | some r => some (Json.num "NaN", r)
      | none =>
      match takeLit "Infinity".data (c :: rest) with
      | some r => some (Json.num "Infinity", r)
      | none =>
      match takeLit "-Infinity".data (c :: rest) with
      | some r => some (Json.num "-Infinity", r)
      | none => parseNum (c :: rest)

/-- Members of a JSON object after the opening brace (nonempty case). -/
def parseMembers (fuel : Nat) (cs : List Char) (acc : List (String × Json)) :
    Option (Json × List Char) :=
  match fuel with
  | 0 => none
  | fuel + 1 =>
    match skipWs cs with
    | '"' :: rest =>
      (match parseStringBody (rest.length + 1) rest with
       | some (k, rest2) =>
         (match skipWs rest2 with
          | ':' :: rest3 =>
            (match parseVal fuel rest3 with
             | some (v, rest4) =>
               (match skipWs rest4 with
                | ',' :: rest5 => parseMembers fuel rest5 (acc ++ [(k, v)])
                | '}' :: rest5 => some (Json.obj (acc ++ [(k, v)]), rest5)
                | _ => none)
             | none => none)
          | _ => none)
       | none => none)
    | _ => none

/-- Elements of a JSON array after the opening bracket (nonempty case). -/
def parseElems (fuel : Nat) (cs : List Char) (acc : List Json) :
    Option (Json × List Char) :=
  match fuel with
  | 0 => none
  | fuel + 1 =>
    match parseVal fuel cs with
    | some (v, rest) =>
      (match skipWs rest with
       | ',' :: rest2 => parseElems fuel rest2 (acc ++ [v])
       | ']' :: rest2 => some (Json.arr (acc ++ [v]), rest2)
       | _ => none)
    | none => none

end

/-- Model of `json.loads`: parse one value and require only whitespace to
remain; `none` models the `json.JSONDecodeError` caught at line 290. -/
def jsonLoads (s : String) : Option Json :=
  match parseVal (s.data.length + 1) s.data with
  | some (v, rest) => if skipWs rest = [] then some v else none
  | none => none

example : jsonLoads "live cam1" = none := rfl
example : jsonLoads "123" = some (Json.num "123") := rfl
example : jsonLoads "\x7b\"action\": \"live\", \"stream\": \"cam1\"\x7d" =
    some (Json.obj [("action", Json.str "live"), ("stream", Json.str "cam1")]) := rfl
example : jsonLoads " true " = some (Json.bool true) := rfl
example : jsonLoads "\x7b\"a\": [1, -2.5e3]\x7d" =
    some (Json.obj [("a", Json.arr [Json.num "1", Json.num "-2.5e3"])]) := rfl

/-- Python `str.isspace()`, the whitespace set of `str.split()` and
`str.strip()`: ASCII 0x09-0x0d and 0x1c-0x1f, space, NEL (0x85), and the
Unicode space-separator characters (NBSP, Ogham space, 0x2000-0x200a,
line/paragraph separator, narrow NBSP, medium mathematical space,
ideographic space). -/
def pyIsSpace (c : Char) : Bool :=
  (9 ≤ c.toNat && c.toNat ≤ 13) || c.toNat = 32 ||
  (28 ≤ c.toNat && c.toNat ≤ 31) || c.toNat = 133 || c.toNat = 160 ||
  c.toNat = 5760 || (8192 ≤ c.toNat && c.toNat ≤ 8202) ||
  c.toNat = 8232 || c.toNat = 8233 || c.toNat = 8239 ||
  c.toNat = 8287 || c.toNat = 12288

/-- Worker loop of `pySplit`: `cur` holds the (reversed) token being
accumulated. -/
def pySplitAux : List Char → List Char → List String
  | [], cur => if cur = [] then [] else [String.mk cur.reverse]
  | c :: cs, cur =>
    if pyIsSpace c then
      if cur = [] then pySplitAux cs []
      else String.mk cur.reverse :: pySplitAux cs []
    else pySplitAux cs (c :: cur)

/-- Python `str.split()` with no arguments (line 291): split on runs of
whitespace, discarding empty tokens. -/
def pySplit (cs : List Char) : List String :=
  pySplitAux cs []

/-- Drop leading whitespace characters (one side of Python `str.strip()`). -/
def dropWsLeft : List Char → List Char
  | [] => []
  | c :: cs => if pyIsSpace c then dropWsLeft cs else c :: cs

/-- Python `str.strip()` (line 282): whitespace removed from both ends.
The outermost operation is the left-strip, so a nonempty result starts
with a non-whitespace character. -/
def pyStrip (s : String) : String :=
  String.mk (dropWsLeft ((dropWsLeft s.data.reverse).reverse))

example : pyStrip "  live cam1 \r\n" = "live cam1" := rfl
example : pySplit "live   cam1".data = ["live", "cam1"] := rfl

/-- One hexadecimal digit (lowercase), as `json.dumps` emits in `\uXXXX`
escapes. -/
def hexDigitChar (n : Nat) : Char :=
  match n % 16 with
  | 0 => '0' | 1 => '1' | 2 => '2' | 3 => '3' | 4 => '4' | 5 => '5' | 6 => '6' | 7 => '7'
  | 8 => '8' | 9 => '9' | 10 => 'a' | 11 => 'b' | 12 => 'c' | 13 => 'd' | 14 => 'e'
  | _ => 'f'

/-- Four-digit hexadecimal rendering for `\uXXXX`. -/
def hex4 (n : Nat) : String :=
  String.mk [hexDigitChar (n / 4096), hexDigitChar (n / 256), hexDigitChar (n / 16),
    hexDigitChar n]

/-- How `json.dumps` (default options, `ensure_ascii=True`) renders one
character inside a string literal. -/
def escapeChar (c : Char) : String :=
  if c = '"' then "\\\""
  else if c = '\\' then "\\\\"
  else if c = '\n' then "\\n"
  else if c = '\t' then "\\t"
  else if c = '\r' then "\\r"
  else if c = Char.ofNat 8 then "\\b"
  else if c = Char.ofNat 12 then "\\f"
  else if c.toNat < 32 then "\\u" ++ hex4 c.toNat
  else if c.toNat < 127 then String.singleton c
  else if c.toNat ≤ 65535 then "\\u" ++ hex4 c.toNat
  else
    "\\u" ++ hex4 (55296 + (c.toNat - 65536) / 1024) ++
      "\\u" ++ hex4 (56320 + (c.toNat - 65536) % 1024)

/-- Escape every character of a string body. -/
def escapeList : List Char → List Char
  | [] => []
  | c :: cs => (escapeChar c).data ++ escapeList cs

/-- The `json.dumps` rendering of a string literal's body. -/
def escapeString (s : String) : String :=
  String.mk (escapeList s.data)

mutual

/-- Model of `json.dumps` with default options: `", "` and `": "`
separators, ASCII-only output. -/
def jsonDumps : Json → String
  | Json.null => "null"
  | Json.bool true => "true"
  | Json.bool false => "false"
  | Json.num s => s
  | Json.str s => "\"" ++ escapeString s ++ "\""
  | Json.arr xs => "[" ++ dumpsElems xs ++ "]"
  | Json.obj fs => "\x7b" ++ dumpsFields fs ++ "\x7d"

/-- Comma-separated rendering of array elements. -/
def dumpsElems : List Json → String
  | [] => ""
  | [x] => jsonDumps x
  | x :: y :: xs => jsonDumps x ++ ", " ++ dumpsElems (y :: xs)

/-- Comma-separated rendering of object members. -/
def dumpsFields : List (String × Json) → String
  | [] => ""
  | [(k, v)] => "\"" ++ escapeString k ++ "\": " ++ jsonDumps v
  | (k, v) :: f :: fs =>
    "\"" ++ escapeString k ++ "\": " ++ jsonDumps v ++ ", " ++ dumpsFields (f :: fs)

end

example : jsonDumps (Json.obj [("error", Json.str "unknown action: foo")]) =
    "\x7b\"error\": \"unknown action: foo\"\x7d" := rfl

/-- Per-camera state (`StreamWorker`, lines 138-241): camera identity, the
current presentation mode (a Python string, `"standby"` initially), a
snapshot of the standby `FfmpegWorker`'s `alive()` flag, and the SSE
subscriber queues.  Each subscriber is an `asyncio.Queue(maxsize=20)` of
serialized status payloads, modelled oldest-first. -/
structure StreamWorker where
  id : String
  name : String
  mode : String
  standby_alive : Bool
  subscribers : List (List String)
deriving DecidableEq

/-- `StreamWorker.status` (lines 215-223): the StatusView, a dict fully
derived from current state. -/
def StreamWorker.status (w : StreamWorker) : Json :=
  Json.obj [
    ("id", Json.str w.id),
    ("name", Json.str w.name),
    ("mode", Json.str w.mode),
    ("standby_url", Json.str ("/hls/" ++ w.id ++ "/standby/index.m3u8")),
    ("webrtc_src", Json.str w.id),
    ("standby_ok", Json.bool w.standby_alive)]

/-- `put_nowait` into every subscriber queue (lines 237-241): a full queue
(20 pending payloads) raises `asyncio.QueueFull`, which is swallowed, so
that subscriber is skipped; everyone else receives the payload. -/
def notifyQueues (payload : String) (qs : List (List String)) : List (List String) :=
  qs.map (fun q => if q.length < 20 then q ++ [payload] else q)

/-- `StreamWorker._notify` (lines 235-241): serialize the current
StatusView once, then non-blocking enqueue into every subscriber queue.
Returns the updated worker and the payload that was broadcast. -/
def StreamWorker.notify (w : StreamWorker) : StreamWorker × String :=
  let payload := jsonDumps w.status
  ({ w with subscribers := notifyQueues payload w.subscribers }, payload)

/-- `StreamWorker.set_live` (lines 195-200): guarded transition to
`"live"`; a no-op if already live.  The second component lists the
notifications emitted (one payload per actual transition). -/
def StreamWorker.set_live (w : StreamWorker) : StreamWorker × List String :=
  if w.mode ≠ "live" then
    let r := StreamWorker.notify { w with mode := "live" }
    (r.1, [r.2])
  else (w, [])

/-- `StreamWorker.set_standby` (lines 202-207): guarded transition to
`"standby"`; a no-op if already standby. -/
def StreamWorker.set_standby (w : StreamWorker) : StreamWorker × List String :=
  if w.mode ≠ "standby" then
    let r := StreamWorker.notify { w with mode := "standby" }
    (r.1, [r.2])
  else (w, [])

/-- `StreamWorker.toggle` (lines 209-213): flip the mode. -/
def StreamWorker.toggle (w : StreamWorker) : StreamWorker × List String :=
  if w.mode = "standby" then w.set_live else w.set_standby

/-- The registry (`StreamManager`, lines 246-265).  Python 3.7+ dicts keep
insertion order, so `self.workers` is modelled as a list in registration
order; configured ids are unique. -/
structure StreamManager where
  workers : List StreamWorker
deriving DecidableEq

/-- `StreamManager.get` (lines 261-262): dict lookup by camera id. -/
def StreamManager.get (m : StreamManager) (sid : String) : Option StreamWorker :=
  m.workers.find? (fun w => w.id == sid)

/-- `StreamManager.all_status` (lines 264-265): StatusViews of all cameras
in registration order. -/
def StreamManager.all_status (m : StreamManager) : List Json :=
  m.workers.map StreamWorker.status

/-- The branch at lines 310-312: run the selected mutating method on one
worker. -/
def applyAction (action : String) (w : StreamWorker) : StreamWorker × List String :=
  if action = "live" then w.set_live
  else if action = "standby" then w.set_standby
  else if action = "toggle" then w.toggle
  else (w, [])

/-- Apply a mutating action to the single worker whose id matches, in
place (the Python code mutates the worker object held by the dict);
`none` when no id matches.  Returns the new worker list, the mutated
worker (whose `status()` the response reports), and the emitted
notifications. -/
def updateFirst (action : String) (sid : String) :
    List StreamWorker → Option (List StreamWorker × StreamWorker × List String)
  | [] => none
  | w :: ws =>
    if w.id == sid then
      let r := applyAction action w
      some (r.1 :: ws, r.1, r.2)
    else
      match updateFirst action sid ws with
      | some p => some (w :: p.1, p.2.1, p.2.2)
      | none => none

/-- A response line: `{"streams": [...]}` or `{"error": "..."}`. -/
inductive Response where
  | streams : List Json → Response
  | error : String → Response

/-- The response object that gets serialized onto the wire. -/
def respJson : Response → Json
  | Response.streams l => Json.obj [("streams", Json.arr l)]
  | Response.error msg => Json.obj [("error", Json.str msg)]

/-- Line 317: the bytes written for one response,
`json.dumps(response) + "\n"`. -/
def responseWire (r : Response) : String :=
  jsonDumps (respJson r) ++ "\n"

/-- Dispatch of one decoded command (lines 297-315).  `action` is the
already-lowercased action string, `stream` the raw `stream` value (any
decoded value: the plaintext path always yields a string, the structured
path may not).  `none` models the uncaught `TypeError` of a dict lookup
with an unhashable key.  The result carries the response, the new
registry state and every notification emitted. -/
def dispatch (m : StreamManager) (action : String) (stream : Json) :
    Option (Response × StreamManager × List String) :=
  if action = "status" then
    some (Response.streams m.all_status, m, [])
  else if action = "live" ∨ action = "standby" ∨ action = "toggle" then
    match stream with
    | Json.str sid =>
      if sid = "*" ∨ sid = "" then
        let rs := m.workers.map (applyAction action)
        some (Response.streams ((rs.map Prod.fst).map StreamWorker.status),
          StreamManager.mk (rs.map Prod.fst), (rs.map Prod.snd).flatten)
      else
        (match updateFirst action sid m.workers with
         | some p =>
           some (Response.streams [p.2.1.status], StreamManager.mk p.1, p.2.2)
         | none => some (Response.error ("unknown stream: " ++ sid), m, []))
    | Json.null => some (Response.error "unknown stream: None", m, [])
    | Json.bool true => some (Response.error "unknown stream: True", m, [])
    | Json.bool false => some (Response.error "unknown stream: False", m, [])
    | Json.num s => some (Response.error ("unknown stream: " ++ s), m, [])
    | Json.arr _ => none
    | Json.obj _ => none
  else
    some (Response.error ("unknown action: " ++ action), m, [])

/-- Last-wins lookup in a decoded JSON object: `json.loads` builds a dict,
so a duplicated key keeps its last value. -/
def lookupField (k : String) (fs : List (String × Json)) : Option Json :=
  fs.foldl (fun acc p => if p.1 == k then some p.2 else acc) none

/-- Python `cmd.get(key, default)`: `none` models the `AttributeError`
raised when `cmd` is not a dict (a decoded scalar or list). -/
def pyGet (cmd : Json) (k : String) (dflt : Json) : Option Json :=
  match cmd with
  | Json.obj fs => some ((lookupField k fs).getD dflt)
  | _ => none

/-- Python `str.lower()` on the ASCII range the protocol uses. -/
def pyLower (s : String) : String :=
  String.mk (s.data.map Char.toLower)

/-- Line 294, `cmd.get("action", "").lower()`: `none` also covers the
`AttributeError` of calling `.lower()` on a non-string action value. -/
def getAction (cmd : Json) : Option String :=
  match pyGet cmd "action" (Json.str "") with
  | some (Json.str a) => some (pyLower a)
  | _ => none

/-- Line 295, `cmd.get("stream", "")`. -/
def getStream (cmd : Json) : Option Json :=
  pyGet cmd "stream" (Json.str "")

/-- Lines 288-292: structured decode of the (stripped, nonempty) line,
falling back to whitespace tokenization.  `none` on the fallback path
models the `IndexError` of `parts[0]` (unreachable: the caller skips
blank lines). -/
def parseLine (line : String) : Option Json :=
  match jsonLoads line with
  | some j => some j
  | none =>
    match pySplit line.data with
    | [] => none
    | a :: rest =>
      some (Json.obj [("action", Json.str a), ("stream", Json.str (rest.headD ""))])

/-- Lines 288-295: the full decode of one line into the internal command
pair (lowercased action, raw stream value); `none` is an uncaught
exception. -/
def cmdOfLine (line : String) : Option (String × Json) :=
  match parseLine line with
  | none => none
  | some cmd =>
    match getAction cmd, getStream cmd with
    | some a, some s => some (a, s)
    | _, _ => none

/-- Outcome of one iteration of the `handle_tcp_client` read loop. -/
inductive LineResult where
  | skip : LineResult
  | reply : Response → StreamManager → List String → LineResult
  | crash : LineResult

/-- Wrap a dispatch outcome into a loop outcome. -/
def dispatchResult (m : StreamManager) (a : String) (s : Json) : LineResult :=
  match dispatch m a s with
  | none => LineResult.crash
  | some (r, m2, ns) => LineResult.reply r m2 ns

/-- One iteration of the `handle_tcp_client` loop (lines 278-318) on a
received line: strip it, skip it if blank, otherwise decode and dispatch.
`reply` writes exactly one response line and keeps the connection open;
`crash` aborts the loop (the `except`/`finally` at lines 320-326 closes
the connection without writing anything). -/
def processLine (m : StreamManager) (raw : String) : LineResult :=
  let line := pyStrip raw
  if line = "" then LineResult.skip
  else
    match cmdOfLine line with
    | none => LineResult.crash
    | some p => dispatchResult m p.1 p.2

/-- A whole connection: the response lines written for a sequence of
received lines, and the final registry state.  A crash ends the
connection immediately; everything before it was already answered. -/
def runSession (m : StreamManager) : List String → List String × StreamManager
  | [] => ([], m)
  | raw :: rest =>
    match processLine m raw with
    | LineResult.skip => runSession m rest
    | LineResult.reply r m2 _ =>
      let p := runSession m2 rest
      (responseWire r :: p.1, p.2)
    | LineResult.crash => ([], m)

/-- Supervisor state (`FfmpegWorker`, lines 78-133).  `procs` records the
liveness of every process this worker ever spawned (`true` = still
running); `cur` is the index `self._proc` refers to (`none` = Python
`None`); `running` is `self._running`. -/
structure FfmpegWorker where
  running : Bool
  procs : List Bool
  cur : Option Nat
deriving DecidableEq

/-- `FfmpegWorker._kill` (lines 100-107): if a process is referenced it is
terminated (`terminate` + bounded `wait`, falling back to `kill`), so it
is dead afterwards; `self._proc` is cleared unconditionally. -/
def FfmpegWorker.kill (w : FfmpegWorker) : FfmpegWorker :=
  match w.cur with
  | some i => { w with procs := w.procs.set i false, cur := none }
  | none => { w with cur := none }

/-- `FfmpegWorker.stop` (lines 93-95): clear the run flag, then `_kill`. -/
def FfmpegWorker.stop (w : FfmpegWorker) : FfmpegWorker :=
  FfmpegWorker.kill { w with running := false }

/-- `FfmpegWorker.alive` (lines 97-98): a process is referenced and its
`poll()` returns `None`. -/
def FfmpegWorker.alive (w : FfmpegWorker) : Bool :=
  match w.cur with
  | some i => w.procs.getD i false
  | none => false

/-- The `subprocess.Popen` of `_loop` (line 113): a fresh live process
becomes the referenced one. -/
def FfmpegWorker.spawn (w : FfmpegWorker) : FfmpegWorker :=
  { w with procs := w.procs ++ [true], cur := some w.procs.length }

/-- One iteration of `FfmpegWorker._loop` (lines 110-126): spawn, wait for
exit, then `_kill` before backing off and looping. -/
def FfmpegWorker.loopIter (w : FfmpegWorker) : FfmpegWorker :=
  (FfmpegWorker.spawn w).kill

/-- The supervision invariant: every process this worker spawned, other
than the currently referenced one, is already dead. -/
def FfmpegWorker.tidy (w : FfmpegWorker) : Prop :=
  ∀ i (h : i < w.procs.length), w.cur ≠ some i → w.procs.get ⟨i, h⟩ = false

/-- The atomic shared-state actions of the two threads alive during
shutdown: the caller of `stop()` (lines 93-95) and the daemon `_loop`
thread (lines 109-133).  `stop()` performs no `join` and takes no lock
shared with `_loop`, so any pending loop action may be interleaved
before or after the whole of `stop()`.  `loopSpawn` is the line-113
`Popen` (enabled once the loop has passed the line-110 `_running`
check); `loopKill` is the loop's own line-126 cleanup. -/
inductive RaceAction where
  | stopCall : RaceAction
  | loopSpawn : RaceAction
  | loopKill : RaceAction

/-- Effect of one interleaved atomic action on the shared supervisor
state. -/
def raceStep (w : FfmpegWorker) : RaceAction → FfmpegWorker
  | RaceAction.stopCall => w.stop
  | RaceAction.loopSpawn => w.spawn
  | RaceAction.loopKill => w.kill

/-- Run one interleaving of the two threads. -/
def raceRun (w : FfmpegWorker) (tr : List RaceAction) : FfmpegWorker :=
  tr.foldl raceStep w

example :
    processLine (StreamManager.mk [StreamWorker.mk "cam1" "Kamera 1" "standby" true []])
      "live cam1" =
    LineResult.reply
      (Response.streams [StreamWorker.status
        (StreamWorker.mk "cam1" "Kamera 1" "live" true [])])
      (StreamManager.mk [StreamWorker.mk "cam1" "Kamera 1" "live" true []])
      [jsonDumps (StreamWorker.status (StreamWorker.mk "cam1" "Kamera 1" "live" true []))] :=
  rfl

example : processLine (StreamManager.mk []) "123" = LineResult.crash := rfl

example : processLine (StreamManager.mk []) "foo bar" =
    LineResult.reply (Response.error "unknown action: foo") (StreamManager.mk []) [] := rfl

/-- The plaintext wire form `<action> <target>` of a command (already
stripped; an empty target leaves a bare action word). -/
def mkPlain (a t : String) : String :=
  if t = "" then a else a ++ " " ++ t

/-- Dispatch a decoded command (or propagate its decode failure): the
common continuation both wire formats feed into. -/
def runCmd (m : StreamManager) (c : Option (String × Json)) :
    Option (Response × StreamManager × List String) :=
  match c with
  | none => none
  | some p => dispatch m p.1 p.2

/-! ## Sample states used to instantiate the theorems -/

/-- A freshly constructed worker (mode `"standby"`, line 178). -/
def demoWorker (i nm md : String) (qs : List (List String)) : StreamWorker :=
  StreamWorker.mk i nm md true qs

/-- A two-camera registry as in the spec's example scenarios. -/
def demoManager : StreamManager :=
  StreamManager.mk [demoWorker "c1" "Kamera 1" "standby" [], demoWorker "c2" "Kamera 2" "standby" []]

/-! ## Claim theorems -/

/-- C1: for every camera, the mode after a mutating operation is a pure
function of (current mode, action): `set_live` maps standby to live and
leaves live unchanged; `set_standby` maps live to standby and leaves
standby unchanged; `toggle` flips the mode. -/
theorem C1_mode_transition_table (w : StreamWorker)
    (h : w.mode = "standby" ∨ w.mode = "live") :
    w.set_live.1.mode = "live" ∧
    w.set_standby.1.mode = "standby" ∧
    (w.mode = "standby" → w.toggle.1.mode = "live") ∧
    (w.mode = "live" → w.toggle.1.mode = "standby") := by
  rcases h with h | h <;>
    simp [StreamWorker.set_live, StreamWorker.set_standby, StreamWorker.toggle,
      StreamWorker.notify, h]

/-- C1 witness: the transition table evaluated on a concrete standby
camera. -/
theorem C1_mode_transition_table_witness :
    (demoWorker "c1" "Kamera 1" "standby" []).set_live.1.mode = "live" ∧
    (demoWorker "c1" "Kamera 1" "standby" []).set_standby.1.mode = "standby" ∧
    ((demoWorker "c1" "Kamera 1" "standby" []).mode = "standby" →
      (demoWorker "c1" "Kamera 1" "standby" []).toggle.1.mode = "live") ∧
    ((demoWorker "c1" "Kamera 1" "standby" []).mode = "live" →
      (demoWorker "c1" "Kamera 1" "standby" []).toggle.1.mode = "standby") :=
  C1_mode_transition_table (demoWorker "c1" "Kamera 1" "standby" []) (Or.inl rfl)

/-- C2: a mutating operation that changes the mode emits exactly one
notification carrying the freshly serialized StatusView; a no-op
transition (requested mode already held) emits none and leaves the worker
untouched; repeating the same mutating command on an already-matching
state emits nothing further while the worker still reports the correct
current mode in its StatusView. -/
theorem C2_notify_exactly_on_change (w : StreamWorker)
    (h : w.mode = "standby" ∨ w.mode = "live") :
    (w.mode ≠ "live" → w.set_live.2 = [jsonDumps w.set_live.1.status]) ∧
    (w.mode = "live" → w.set_live = (w, [])) ∧
    (w.mode ≠ "standby" → w.set_standby.2 = [jsonDumps w.set_standby.1.status]) ∧
    (w.mode = "standby" → w.set_standby = (w, [])) ∧
    w.toggle.2 = [jsonDumps w.toggle.1.status] ∧
    w.set_live.1.set_live = (w.set_live.1, []) ∧
    w.set_live.1.mode = "live" ∧
    w.set_standby.1.set_standby = (w.set_standby.1, []) ∧
    w.set_standby.1.mode = "standby" := by
  rcases h with h | h <;>
    simp [StreamWorker.set_live, StreamWorker.set_standby, StreamWorker.toggle,
      StreamWorker.notify, StreamWorker.status, h]

/-- C2 witness: one standby camera with one (empty) subscriber queue;
`set_live` emits exactly one payload, repeating it emits none. -/
theorem C2_notify_exactly_on_change_witness :
    ((demoWorker "c1" "K" "standby" [[]]).mode ≠ "live" →
      (demoWorker "c1" "K" "standby" [[]]).set_live.2 =
        [jsonDumps (demoWorker "c1" "K" "standby" [[]]).set_live.1.status]) ∧
    ((demoWorker "c1" "K" "standby" [[]]).mode = "live" →
      (demoWorker "c1" "K" "standby" [[]]).set_live = (demoWorker "c1" "K" "standby" [[]], [])) ∧
    ((demoWorker "c1" "K" "standby" [[]]).mode ≠ "standby" →
      (demoWorker "c1" "K" "standby" [[]]).set_standby.2 =
        [jsonDumps (demoWorker "c1" "K" "standby" [[]]).set_standby.1.status]) ∧
    ((demoWorker "c1" "K" "standby" [[]]).mode = "standby" →
      (demoWorker "c1" "K" "standby" [[]]).set_standby =
        (demoWorker "c1" "K" "standby" [[]], [])) ∧
    (demoWorker "c1" "K" "standby" [[]]).toggle.2 =
      [jsonDumps (demoWorker "c1" "K" "standby" [[]]).toggle.1.status] ∧
    (demoWorker "c1" "K" "standby" [[]]).set_live.1.set_live =
      ((demoWorker "c1" "K" "standby" [[]]).set_live.1, []) ∧
    (demoWorker "c1" "K" "standby" [[]]).set_live.1.mode = "live" ∧
    (demoWorker "c1" "K" "standby" [[]]).set_standby.1.set_standby =
      ((demoWorker "c1" "K" "standby" [[]]).set_standby.1, []) ∧
    (demoWorker "c1" "K" "standby" [[]]).set_standby.1.mode = "standby" :=
  C2_notify_exactly_on_change (demoWorker "c1" "K" "standby" [[]]) (Or.inl rfl)

/-- C8: `_notify` serializes the current StatusView once and enqueues it,
non-blocking, into every currently-registered subscriber queue; a full
queue (20 pending) silently drops the message for that subscriber only,
while every queue with room still receives it, and the notifier always
returns normally (it is a total function). -/
theorem C8_notify_backpressure_isolation (w : StreamWorker) (i : Nat)
    (h : i < w.subscribers.length) :
    w.notify.2 = jsonDumps w.status ∧
    w.notify.1.subscribers.length = w.subscribers.length ∧
    ∀ h2 : i < w.notify.1.subscribers.length,
      w.notify.1.subscribers[i] =
        (if (w.subscribers[i]).length < 20
         then w.subscribers[i] ++ [jsonDumps w.status]
         else w.subscribers[i]) := by
  refine ⟨rfl, by simp [StreamWorker.notify, notifyQueues], ?_⟩
  intro h2
  simp [StreamWorker.notify, notifyQueues]

/-- C8 witness: one saturated queue (20 pending payloads) and one empty
queue; the saturated one is unchanged, the empty one receives the
payload. -/
theorem C8_notify_backpressure_isolation_witness :
    (demoWorker "c1" "K" "live" [List.replicate 20 "x", []]).notify.2 =
      jsonDumps (demoWorker "c1" "K" "live" [List.replicate 20 "x", []]).status ∧
    (demoWorker "c1" "K" "live" [List.replicate 20 "x", []]).notify.1.subscribers.length =
      (demoWorker "c1" "K" "live" [List.replicate 20 "x", []]).subscribers.length ∧
    (∀ h2 : 0 < (demoWorker "c1" "K" "live"
        [List.replicate 20 "x", []]).notify.1.subscribers.length,
      (demoWorker "c1" "K" "live" [List.replicate 20 "x", []]).notify.1.subscribers[0] =
        (if ((demoWorker "c1" "K" "live" [List.replicate 20 "x",
              []]).subscribers[0]).length < 20
         then (demoWorker "c1" "K" "live" [List.replicate 20 "x", []]).subscribers[0] ++
           [jsonDumps (demoWorker "c1" "K" "live" [List.replicate 20 "x", []]).status]
         else (demoWorker "c1" "K" "live" [List.replicate 20 "x", []]).subscribers[0])) ∧
    (demoWorker "c1" "K" "live" [List.replicate 20 "x", []]).notify.1.subscribers =
      [List.replicate 20 "x",
        [jsonDumps (demoWorker "c1" "K" "live" [List.replicate 20 "x", []]).status]] :=
  ⟨(C8_notify_backpressure_isolation (demoWorker "c1" "K" "live"
      [List.replicate 20 "x", []]) 0 (by decide)).1,
   (C8_notify_backpressure_isolation (demoWorker "c1" "K" "live"
      [List.replicate 20 "x", []]) 0 (by decide)).2.1,
   (C8_notify_backpressure_isolation (demoWorker "c1" "K" "live"
      [List.replicate 20 "x", []]) 0 (by decide)).2.2,
   by decide⟩

/-- The supervision loop preserves tidiness: each iteration kills the
process it spawned before looping, so only the current process can be
alive. -/
theorem tidy_kill (w : FfmpegWorker) (hw : w.tidy) : w.kill.tidy := by
  cases w with
  | mk running procs cur =>
    cases cur with
    | none =>
      intro i h hne
      exact hw i h (by simp)
    | some j =>
      intro i h hne
      simp only [FfmpegWorker.kill] at h ⊢
      by_cases hij : i = j
      · subst hij
        have h2 : i < procs.length := by simpa using h
        simpa [List.get_eq_getElem] using @List.getElem_set_self _ procs i false h
      · have h2 : i < procs.length := by simpa using h
        have := hw i h2 (by simp [Ne, Option.some.injEq]; exact fun e => hij e.symm)
        simpa [List.get_eq_getElem, List.getElem_set_of_ne (fun e => hij e.symm)] using this

/-- Spawning preserves tidiness: the fresh process becomes current. -/
theorem tidy_spawn (w : FfmpegWorker) (hw : w.cur = none → w.tidy)
    (hk : w.cur = none) : w.spawn.tidy := by
  intro i h hne
  simp only [FfmpegWorker.spawn] at h hne ⊢
  have hlen : i < w.procs.length + 1 := by simpa using h
  have hia : i ≠ w.procs.length := by
    intro e
    exact hne (by simp [e])
  have hi : i < w.procs.length := by omega
  have := hw hk i hi (by simp [hk])
  simp only [List.get_eq_getElem] at this ⊢
  rw [List.getElem_append_left hi]
  exact this

/-- C9 counterexample: `stop()` never joins or synchronizes with the
daemon `_loop` thread.  Start from the state in which the loop thread
has just passed the line-110 `while self._running` check (the flag is
still set, no process referenced): the whole of `stop()` then runs and
returns, after which the loop thread's pending line-113 `Popen` fires.
The resulting state has a live supervised process although `stop()` has
already returned — death-before-return fails.  The process dies only
when the loop proceeds to its own line-126 `_kill` (third action); if
the interpreter exits first, the daemon thread is abandoned and the
process is orphaned. -/
theorem C9_counterexample_unjoined_loop_race :
    (raceRun (FfmpegWorker.mk true [] none)
      [RaceAction.stopCall, RaceAction.loopSpawn]).alive = true ∧
    (raceRun (FfmpegWorker.mk true [] none)
      [RaceAction.stopCall, RaceAction.loopSpawn]).running = false ∧
    (raceRun (FfmpegWorker.mk true [] none)
      [RaceAction.stopCall, RaceAction.loopSpawn, RaceAction.loopKill]).alive =
      false := by
  decide

/-- C9 (amended): absent a concurrent supervision-loop step (no `Popen`
of the unjoined daemon `_loop` thread interleaved between its line-110
`_running` check and the return of `stop()`), `stop()` is idempotent — a
second call finds `_proc` already cleared and does nothing further — and
it guarantees the supervised process is dead before it returns: under
the loop invariant that only the currently referenced process can be
alive (`tidy`, maintained by `loopIter`), after `stop` every process
this supervisor ever spawned is dead and `alive()` is false.  Against
the racing loop thread the guarantee does not hold (see the
counterexample): a freshly spawned process can be alive after `stop()`
returns, killed only by the loop's own cleanup or orphaned at
interpreter exit. -/
theorem C9_stop_idempotent_and_kills (w : FfmpegWorker) (hw : w.tidy) :
    w.stop.stop = w.stop ∧
    w.stop.alive = false ∧
    w.stop.running = false ∧
    ∀ i (h : i < w.stop.procs.length), w.stop.procs.get ⟨i, h⟩ = false := by
  cases w with
  | mk running procs cur =>
    refine ⟨?_, ?_, ?_, ?_⟩
    · cases cur <;> rfl
    · cases cur <;> rfl
    · cases cur <;> rfl
    · intro i h
      cases cur with
      | none =>
        exact hw i (by simpa [FfmpegWorker.stop, FfmpegWorker.kill] using h) (by simp)
      | some j =>
        simp only [FfmpegWorker.stop, FfmpegWorker.kill] at h ⊢
        have h2 : i < procs.length := by simpa using h
        by_cases hij : i = j
        · subst hij
          simpa [List.get_eq_getElem] using @List.getElem_set_self _ procs i false h
        · have := hw i h2 (by simp [Ne, Option.some.injEq]; exact fun e => hij e.symm)
          simpa [List.get_eq_getElem, List.getElem_set_of_ne (fun e => hij e.symm)] using this

/-- C9 witness: a tidy supervisor with one dead and one live spawned
process; after `stop` both are dead, `alive()` is false, and a second
`stop` changes nothing. -/
theorem C9_stop_idempotent_and_kills_witness :
    (FfmpegWorker.mk true [false, true] (some 1)).stop.stop =
      (FfmpegWorker.mk true [false, true] (some 1)).stop ∧
    (FfmpegWorker.mk true [false, true] (some 1)).stop.alive = false ∧
    (FfmpegWorker.mk true [false, true] (some 1)).stop.running = false ∧
    ∀ i (h : i < (FfmpegWorker.mk true [false, true] (some 1)).stop.procs.length),
      (FfmpegWorker.mk true [false, true] (some 1)).stop.procs.get ⟨i, h⟩ = false :=
  C9_stop_idempotent_and_kills (FfmpegWorker.mk true [false, true] (some 1))
    (by
      intro i h hne
      have h2 : i < 2 := by simpa using h
      interval_cases i <;> simp_all)

/-- If no registered id matches, the in-place update finds nothing. -/
theorem updateFirst_eq_none (a t : String) (ws : List StreamWorker)
    (h : ∀ w ∈ ws, w.id ≠ t) : updateFirst a t ws = none := by
  induction ws with
  | nil => rfl
  | cons w ws ih =>
    have hw : (w.id == t) = false := by
      simpa using h w (List.mem_cons_self w ws)
    simp only [updateFirst, hw, Bool.false_eq_true, if_false]
    rw [ih (fun u hu => h u (List.mem_cons_of_mem w hu))]

/-- The in-place update finds exactly the first matching worker and
leaves everyone else alone. -/
theorem updateFirst_append (a t : String) (pre : List StreamWorker)
    (w : StreamWorker) (post : List StreamWorker)
    (hpre : ∀ u ∈ pre, u.id ≠ t) (hw : w.id = t) :
    updateFirst a t (pre ++ w :: post) =
      some (pre ++ (applyAction a w).1 :: post, (applyAction a w).1, (applyAction a w).2) := by
  induction pre with
  | nil =>
    simp [updateFirst, hw]
  | cons u pre ih =>
    have hu : (u.id == t) = false := by
      simpa using hpre u (List.mem_cons_self u pre)
    simp only [List.cons_append, updateFirst, hu, Bool.false_eq_true, if_false,
      List.append_eq]
    rw [ih (fun v hv => hpre v (List.mem_cons_of_mem u hv))]

/-- C3: a mutating command whose target is a non-empty, non-wildcard
string matching no registered camera id yields exactly the error response
naming that target, leaves the registry (every camera's mode and
subscriber queues) unchanged, and emits no notification. -/
theorem C3_unknown_target_rejected (m : StreamManager) (a t : String)
    (ha : a = "live" ∨ a = "standby" ∨ a = "toggle")
    (h1 : t ≠ "*") (h2 : t ≠ "") (hm : m.get t = none) :
    dispatch m a (Json.str t) = some (Response.error ("unknown stream: " ++ t), m, []) := by
  have hs : a ≠ "status" := by rcases ha with h | h | h <;> simp [h]
  have hnone : updateFirst a t m.workers = none := by
    refine updateFirst_eq_none a t m.workers (fun w hw => ?_)
    have := List.find?_eq_none.mp hm w hw
    simpa using this
  unfold dispatch
  rw [if_neg hs, if_pos ha]
  simp only [h1, h2, or_self, if_false, hnone]

/-- C3 witness: `{"action":"live","stream":"ghost"}` against the
two-camera registry (spec example scenario 5). -/
theorem C3_unknown_target_rejected_witness :
    dispatch demoManager "live" (Json.str "ghost") =
      some (Response.error ("unknown stream: " ++ "ghost"), demoManager, []) :=
  C3_unknown_target_rejected demoManager "live" "ghost" (Or.inl rfl)
    (by decide) (by decide) rfl

/-- C5: a mutating command whose target is `"*"` or the empty string
applies the transition to every registered camera and responds with the
StatusViews of all of them, in registration order; an exact-match
single-camera target applies it to that camera alone and the response
lists exactly that one camera (with everyone else left in place). -/
theorem C5_wildcard_and_exact_match (m : StreamManager) (a t : String)
    (ha : a = "live" ∨ a = "standby" ∨ a = "toggle") :
    (∀ s, s = "*" ∨ s = "" →
      dispatch m a (Json.str s) =
        some (Response.streams
            ((m.workers.map (fun w => (applyAction a w).1)).map StreamWorker.status),
          StreamManager.mk (m.workers.map (fun w => (applyAction a w).1)),
          (m.workers.map (fun w => (applyAction a w).2)).flatten)) ∧
    (∀ pre w post, m.workers = pre ++ w :: post → w.id = t →
      t ≠ "*" → t ≠ "" → (∀ u ∈ pre, u.id ≠ t) →
      dispatch m a (Json.str t) =
        some (Response.streams [(applyAction a w).1.status],
          StreamManager.mk (pre ++ (applyAction a w).1 :: post),
          (applyAction a w).2)) := by
  have hs : a ≠ "status" := by rcases ha with h | h | h <;> simp [h]
  constructor
  · intro s hwild
    unfold dispatch
    rw [if_neg hs, if_pos ha]
    simp only [hwild, if_true, List.map_map]
    rfl
  · intro pre w post hsplit hid h1 h2 hpre
    unfold dispatch
    rw [if_neg hs, if_pos ha]
    simp only [h1, h2, or_self, if_false, hsplit,
      updateFirst_append a t pre w post hpre hid]

/-- C5 witness: `toggle` on `"*"` against the two-camera registry hits
both cameras in registration order (spec example scenario 3), and
`live` on `"c2"` hits exactly `c2`. -/
theorem C5_wildcard_and_exact_match_witness :
    (dispatch demoManager "toggle" (Json.str "*") =
      some (Response.streams
          ((demoManager.workers.map (fun w => (applyAction "toggle" w).1)).map
            StreamWorker.status),
        StreamManager.mk (demoManager.workers.map (fun w => (applyAction "toggle" w).1)),
        (demoManager.workers.map (fun w => (applyAction "toggle" w).2)).flatten)) ∧
    (dispatch demoManager "live" (Json.str "c2") =
      some (Response.streams
          [(applyAction "live" (demoWorker "c2" "Kamera 2" "standby" [])).1.status],
        StreamManager.mk ([demoWorker "c1" "Kamera 1" "standby" []] ++
          (applyAction "live" (demoWorker "c2" "Kamera 2" "standby" [])).1 :: []),
        (applyAction "live" (demoWorker "c2" "Kamera 2" "standby" [])).2)) :=
  ⟨(C5_wildcard_and_exact_match demoManager "toggle" "c2" (Or.inr (Or.inr rfl))).1
      "*" (Or.inl rfl),
   (C5_wildcard_and_exact_match demoManager "live" "c2" (Or.inl rfl)).2
      [demoWorker "c1" "Kamera 1" "standby" []] (demoWorker "c2" "Kamera 2" "standby" []) []
      rfl rfl (by decide) (by decide)
      (by intro u hu; simp at hu; subst hu; decide)⟩

/-- C7: a decoded command whose (lowercased) action is none of `status`,
`live`, `standby`, `toggle` is answered with an error object naming that
action; the registry is unchanged and no notification is emitted. -/
theorem C7_unknown_action_rejected (m : StreamManager) (raw a : String) (s : Json)
    (hne : pyStrip raw ≠ "")
    (hcmd : cmdOfLine (pyStrip raw) = some (a, s))
    (hbad : a ≠ "status" ∧ a ≠ "live" ∧ a ≠ "standby" ∧ a ≠ "toggle") :
    processLine m raw =
      LineResult.reply (Response.error ("unknown action: " ++ a)) m [] := by
  unfold processLine
  simp only [hne, if_false, hcmd, dispatchResult]
  unfold dispatch
  rw [if_neg hbad.1, if_neg (by simp [hbad.2.1, hbad.2.2.1, hbad.2.2.2])]

/-- C7 witness: the line `foo bar` yields
`{"error": "unknown action: foo"}` and no state change (spec example
scenario 4). -/
theorem C7_unknown_action_rejected_witness :
    processLine demoManager "foo bar" =
      LineResult.reply (Response.error ("unknown action: " ++ "foo")) demoManager [] :=
  C7_unknown_action_rejected demoManager "foo bar" "foo" (Json.str "bar")
    (by decide) rfl (by refine ⟨?_, ?_, ?_, ?_⟩ <;> decide)

/-- A nonempty string has a nonempty character list. -/
theorem data_ne_nil_of_ne_empty (s : String) (h : s ≠ "") : s.data ≠ [] := by
  intro hd
  exact h (by
    have : String.mk s.data = String.mk [] := by rw [hd]
    simpa using this)

/-- `pySplitAux` over whitespace-free input just finishes the current
token. -/
theorem pySplitAux_no_ws (cs : List Char) (cur : List Char)
    (hws : ∀ c ∈ cs, pyIsSpace c = false) (hcur : cur ≠ []) :
    pySplitAux cs cur = [String.mk (cur.reverse ++ cs)] := by
  induction cs generalizing cur with
  | nil => simp [pySplitAux, hcur]
  | cons c cs ih =>
    have hc : pyIsSpace c = false := hws c (List.mem_cons_self c cs)
    simp only [pySplitAux, hc, Bool.false_eq_true, if_false]
    rw [ih (c :: cur) (fun d hd => hws d (List.mem_cons_of_mem c hd)) (by simp)]
    simp

/-- A nonempty whitespace-free token splits to itself. -/
theorem pySplit_single (cs : List Char) (hne : cs ≠ [])
    (hws : ∀ c ∈ cs, pyIsSpace c = false) :
    pySplit cs = [String.mk cs] := by
  cases cs with
  | nil => exact absurd rfl hne
  | cons c cs =>
    have hc : pyIsSpace c = false := hws c (List.mem_cons_self c cs)
    simp only [pySplit, pySplitAux, hc, Bool.false_eq_true, if_false]
    rw [pySplitAux_no_ws cs [c] (fun d hd => hws d (List.mem_cons_of_mem c hd)) (by simp)]
    simp

/-- Two nonempty whitespace-free tokens joined by a single space split to
the two tokens. -/
theorem pySplitAux_pair (cs : List Char) (t : List Char) (cur : List Char)
    (hws : ∀ c ∈ cs, pyIsSpace c = false) (hcur : cur ≠ [])
    (htne : t ≠ []) (htws : ∀ c ∈ t, pyIsSpace c = false) :
    pySplitAux (cs ++ ' ' :: t) cur = [String.mk (cur.reverse ++ cs), String.mk t] := by
  induction cs generalizing cur with
  | nil =>
    simp only [List.nil_append, pySplitAux, if_pos (by decide : pyIsSpace ' ' = true),
      hcur, if_false]
    have : pySplitAux t [] = pySplit t := rfl
    rw [this, pySplit_single t htne htws]
    simp
  | cons c cs ih =>
    have hc : pyIsSpace c = false := hws c (List.mem_cons_self c cs)
    simp only [List.cons_append, pySplitAux, hc, Bool.false_eq_true, if_false,
      List.append_eq]
    rw [ih (c :: cur) (fun d hd => hws d (List.mem_cons_of_mem c hd)) (by simp)]
    simp

/-- `pySplitAux` with a token in progress always yields at least one
token. -/
theorem pySplitAux_ne_nil (cs : List Char) (cur : List Char) (hcur : cur ≠ []) :
    ∃ tok rest, pySplitAux cs cur = tok :: rest := by
  induction cs generalizing cur with
  | nil => exact ⟨String.mk cur.reverse, [], by simp [pySplitAux, hcur]⟩
  | cons c cs ih =>
    by_cases hc : pyIsSpace c = true
    · refine ⟨String.mk cur.reverse, pySplitAux cs [], ?_⟩
      simp only [pySplitAux, hc, if_true, hcur, if_false]
    · obtain ⟨tok, rest, h⟩ := ih (c :: cur) (by simp)
      refine ⟨tok, rest, ?_⟩
      simp only [pySplitAux, hc, if_false]
      exact h

/-- The left-strip of `pyStrip` either empties the input or exposes a
non-whitespace head. -/
theorem dropWsLeft_shape (cs : List Char) :
    dropWsLeft cs = [] ∨
      ∃ c cs2, dropWsLeft cs = c :: cs2 ∧ pyIsSpace c = false := by
  induction cs with
  | nil => exact Or.inl rfl
  | cons c cs ih =>
    by_cases hc : pyIsSpace c = true
    · simpa [dropWsLeft, hc] using ih
    · exact Or.inr ⟨c, cs, by simp [dropWsLeft, hc], by simpa using hc⟩

/-- A nonempty stripped line starts with a non-whitespace character. -/
theorem pyStrip_shape (raw : String) (h : pyStrip raw ≠ "") :
    ∃ c cs, (pyStrip raw).data = c :: cs ∧ pyIsSpace c = false := by
  rcases dropWsLeft_shape ((dropWsLeft raw.data.reverse).reverse) with he | ⟨c, cs, he, hc⟩
  · exact absurd (by simp [pyStrip, he]) h
  · exact ⟨c, cs, by simp [pyStrip, he], hc⟩

/-- C10 (implicit): the action string of a decoded command is lowercased
(line 294) before dispatch, so `LIVE c1` behaves exactly like `live c1`,
and the error object for an unrecognized action names the lowercased
form, not the string as received. -/
theorem C10_action_lowercased_before_dispatch (m : StreamManager) (raw a : String)
    (cmd s : Json)
    (hne : pyStrip raw ≠ "")
    (hp : parseLine (pyStrip raw) = some cmd)
    (ha : pyGet cmd "action" (Json.str "") = some (Json.str a))
    (hs : getStream cmd = some s) :
    processLine m raw = dispatchResult m (pyLower a) s ∧
    ((pyLower a ≠ "status" ∧ pyLower a ≠ "live" ∧ pyLower a ≠ "standby" ∧
        pyLower a ≠ "toggle") →
      processLine m raw =
        LineResult.reply (Response.error ("unknown action: " ++ pyLower a)) m []) := by
  have hga : getAction cmd = some (pyLower a) := by
    unfold getAction
    rw [ha]
  have hcl : cmdOfLine (pyStrip raw) = some (pyLower a, s) := by
    unfold cmdOfLine
    rw [hp]
    simp only [hga, hs]
  constructor
  · unfold processLine
    simp only [hne, if_false, hcl]
  · intro hbad
    unfold processLine
    simp only [hne, if_false, hcl, dispatchResult]
    unfold dispatch
    rw [if_neg hbad.1, if_neg (by simp [hbad.2.1, hbad.2.2.1, hbad.2.2.2])]

/-- C10 witness: `LIVE c1` dispatches as the lowercased action and
behaves identically to `live c1`; `FOO bar` is rejected as
`unknown action: foo`. -/
theorem C10_action_lowercased_before_dispatch_witness :
    processLine demoManager "LIVE c1" =
      dispatchResult demoManager (pyLower "LIVE") (Json.str "c1") ∧
    processLine demoManager "LIVE c1" = processLine demoManager "live c1" ∧
    processLine demoManager "FOO bar" =
      LineResult.reply (Response.error ("unknown action: " ++ pyLower "FOO"))
        demoManager [] :=
  ⟨(C10_action_lowercased_before_dispatch demoManager "LIVE c1" "LIVE"
      (Json.obj [("action", Json.str "LIVE"), ("stream", Json.str "c1")])
      (Json.str "c1") (by decide) rfl rfl rfl).1,
   rfl,
   (C10_action_lowercased_before_dispatch demoManager "FOO bar" "FOO"
      (Json.obj [("action", Json.str "FOO"), ("stream", Json.str "bar")])
      (Json.str "bar") (by decide) rfl rfl rfl).2
     ⟨by decide, by decide, by decide, by decide⟩⟩

/-- C4 counterexample: with action `live` and target `a b`, the plaintext
line and the structured line decode to different internal commands (the
tokenizer cuts the target at the first space), so the two wire forms are
not equivalent for every action/target pair. -/
theorem C4_counterexample_whitespace_target :
    cmdOfLine "live a b" = some ("live", Json.str "a") ∧
    cmdOfLine "\x7b\"action\": \"live\", \"stream\": \"a b\"\x7d" =
      some ("live", Json.str "a b") ∧
    Json.str "a" ≠ Json.str "a b" := by
  refine ⟨rfl, rfl, ?_⟩
  intro h
  injection h with h2
  exact absurd h2 (by decide)

/-- Both tokens of `<action> <target>` are recovered whole when they are
nonempty and whitespace-free. -/
theorem pySplit_pair (a t : String) (hane : a ≠ "")
    (haws : ∀ c ∈ a.data, pyIsSpace c = false)
    (htne : t ≠ "") (htws : ∀ c ∈ t.data, pyIsSpace c = false) :
    pySplit (a.data ++ ' ' :: t.data) = [a, t] := by
  cases hd : a.data with
  | nil => exact absurd hd (data_ne_nil_of_ne_empty a hane)
  | cons c cs =>
    have hc : pyIsSpace c = false := by
      apply haws
      rw [hd]
      exact List.mem_cons_self c cs
    have hcs : ∀ d ∈ cs, pyIsSpace d = false := by
      intro d hdd
      apply haws
      rw [hd]
      exact List.mem_cons_of_mem c hdd
    simp only [List.cons_append, pySplit, pySplitAux, hc, Bool.false_eq_true, if_false,
      List.append_eq]
    rw [pySplitAux_pair cs t.data [c] hcs (by simp)
      (data_ne_nil_of_ne_empty t htne) htws]
    have h1 : ([c].reverse ++ cs) = a.data := by simp [hd]
    rw [h1]

/-- C4 (amended): for a nonempty whitespace-free action and a
whitespace-free target, provided the plaintext line `<action> <target>`
is not itself decodable as structured text, the plaintext line and any
structured line decoding to `{"action": <action>, "stream": <target>}`
parse to the identical internal command (lowercased action, same target)
and therefore produce identical responses and identical state
transitions.  (Unrestricted, the claim fails: a target containing
whitespace is cut at its first space by the plaintext tokenizer.) -/
theorem C4_amended_dual_format_equivalence (m : StreamManager) (a t line : String)
    (hane : a ≠ "") (haws : ∀ c ∈ a.data, pyIsSpace c = false)
    (htws : ∀ c ∈ t.data, pyIsSpace c = false)
    (hjson : jsonLoads (mkPlain a t) = none)
    (hline : jsonLoads line =
      some (Json.obj [("action", Json.str a), ("stream", Json.str t)])) :
    cmdOfLine (mkPlain a t) = some (pyLower a, Json.str t) ∧
    cmdOfLine line = cmdOfLine (mkPlain a t) ∧
    runCmd m (cmdOfLine line) = runCmd m (cmdOfLine (mkPlain a t)) := by
  have hobj : parseLine (mkPlain a t) =
      some (Json.obj [("action", Json.str a), ("stream", Json.str t)]) := by
    unfold parseLine
    rw [hjson]
    by_cases ht : t = ""
    · subst ht
      have hm : mkPlain a "" = a := by simp [mkPlain]
      rw [hm, pySplit_single a.data (data_ne_nil_of_ne_empty a hane) haws]
      rfl
    · have hm : mkPlain a t = a ++ " " ++ t := by simp [mkPlain, ht]
      have hdata : (a ++ " " ++ t).data = a.data ++ ' ' :: t.data := by
        rw [String.data_append, String.data_append]
        simp
      rw [hm, hdata, pySplit_pair a t hane haws ht htws]
      rfl
  have h1 : cmdOfLine (mkPlain a t) = some (pyLower a, Json.str t) := by
    unfold cmdOfLine
    rw [hobj]
    rfl
  have h2 : cmdOfLine line = some (pyLower a, Json.str t) := by
    unfold cmdOfLine parseLine
    rw [hline]
    rfl
  exact ⟨h1, by rw [h1, h2], by rw [h1, h2]⟩

/-- C4 witness: `live c1` and `{"action": "live", "stream": "c1"}` decode
to the same command and behave identically against the two-camera
registry. -/
theorem C4_amended_dual_format_equivalence_witness :
    cmdOfLine (mkPlain "live" "c1") = some (pyLower "live", Json.str "c1") ∧
    cmdOfLine "\x7b\"action\": \"live\", \"stream\": \"c1\"\x7d" =
      cmdOfLine (mkPlain "live" "c1") ∧
    runCmd demoManager (cmdOfLine "\x7b\"action\": \"live\", \"stream\": \"c1\"\x7d") =
      runCmd demoManager (cmdOfLine (mkPlain "live" "c1")) :=
  C4_amended_dual_format_equivalence demoManager "live" "c1"
    "\x7b\"action\": \"live\", \"stream\": \"c1\"\x7d"
    (by decide) (by decide) (by decide) rfl rfl

/-- Hex digits are never a newline. -/
theorem hexDigitChar_ne_nl (n : Nat) : hexDigitChar n ≠ '\n' := by
  unfold hexDigitChar
  have h : n % 16 < 16 := Nat.mod_lt _ (by norm_num)
  revert h
  generalize n % 16 = k
  intro h
  interval_cases k <;> decide

/-- A `\\uXXXX` escape contains no raw newline. -/
theorem no_nl_in_uescape (n : Nat) : '\n' ∉ (("\\u" ++ hex4 n) : String).data := by
  show '\n' ∉ ['\\', 'u', hexDigitChar (n / 4096), hexDigitChar (n / 256),
    hexDigitChar (n / 16), hexDigitChar n]
  intro hm
  simp only [List.mem_cons, List.not_mem_nil, or_false] at hm
  rcases hm with h | h | h | h | h | h
  · exact absurd h (by decide)
  · exact absurd h (by decide)
  · exact hexDigitChar_ne_nl _ h.symm
  · exact hexDigitChar_ne_nl _ h.symm
  · exact hexDigitChar_ne_nl _ h.symm
  · exact hexDigitChar_ne_nl _ h.symm

/-- A surrogate-pair escape contains no raw newline. -/
theorem no_nl_in_usurrogate (a b : Nat) :
    '\n' ∉ (("\\u" ++ hex4 a ++ "\\u" ++ hex4 b) : String).data := by
  show '\n' ∉ ['\\', 'u', hexDigitChar (a / 4096), hexDigitChar (a / 256),
    hexDigitChar (a / 16), hexDigitChar a, '\\', 'u', hexDigitChar (b / 4096),
    hexDigitChar (b / 256), hexDigitChar (b / 16), hexDigitChar b]
  intro hm
  simp only [List.mem_cons, List.not_mem_nil, or_false] at hm
  rcases hm with h | h | h | h | h | h | h | h | h | h | h | h
  · exact absurd h (by decide)
  · exact absurd h (by decide)
  · exact hexDigitChar_ne_nl _ h.symm
  · exact hexDigitChar_ne_nl _ h.symm
  · exact hexDigitChar_ne_nl _ h.symm
  · exact hexDigitChar_ne_nl _ h.symm
  · exact absurd h (by decide)
  · exact absurd h (by decide)
  · exact hexDigitChar_ne_nl _ h.symm
  · exact hexDigitChar_ne_nl _ h.symm
  · exact hexDigitChar_ne_nl _ h.symm
  · exact hexDigitChar_ne_nl _ h.symm

/-- `json.dumps` string escaping never emits a raw newline: the newline
character itself is escaped to backslash-n. -/
theorem escapeChar_no_nl (c : Char) : '\n' ∉ (escapeChar c).data := by
  unfold escapeChar
  by_cases h1 : c = '"'
  · rw [if_pos h1]; decide
  rw [if_neg h1]
  by_cases h2 : c = '\\'
  · rw [if_pos h2]; decide
  rw [if_neg h2]
  by_cases h3 : c = '\n'
  · rw [if_pos h3]; decide
  rw [if_neg h3]
  by_cases h4 : c = '\t'
  · rw [if_pos h4]; decide
  rw [if_neg h4]
  by_cases h5 : c = '\r'
  · rw [if_pos h5]; decide
  rw [if_neg h5]
  by_cases h6 : c = Char.ofNat 8
  · rw [if_pos h6]; decide
  rw [if_neg h6]
  by_cases h7 : c = Char.ofNat 12
  · rw [if_pos h7]; decide
  rw [if_neg h7]
  by_cases h8 : c.toNat < 32
  · rw [if_pos h8]
    exact no_nl_in_uescape c.toNat
  rw [if_neg h8]
  by_cases h9 : c.toNat < 127
  · rw [if_pos h9]
    show '\n' ∉ [c]
    intro hm
    simp only [List.mem_cons, List.not_mem_nil, or_false] at hm
    exact h3 hm.symm
  rw [if_neg h9]
  by_cases h10 : c.toNat ≤ 65535
  · rw [if_pos h10]
    exact no_nl_in_uescape c.toNat
  rw [if_neg h10]
  exact no_nl_in_usurrogate _ _

/-- No escaped string body contains a raw newline. -/
theorem escapeList_no_nl (l : List Char) : '\n' ∉ escapeList l := by
  induction l with
  | nil => simp [escapeList]
  | cons c cs ih =>
    simp only [escapeList, List.mem_append]
    intro h
    rcases h with h | h
    · exact escapeChar_no_nl c h
    · exact ih h

/-- Newline count distributes over string concatenation. -/
theorem count_nl_append (s1 s2 : String) :
    (s1 ++ s2).data.count '\n' = s1.data.count '\n' + s2.data.count '\n' := by
  rw [String.data_append, List.count_append]

/-- An error response occupies exactly one terminated line on the wire. -/
theorem error_wire_count (msg : String) :
    (responseWire (Response.error msg)).data.count '\n' = 1 := by
  have hesc : (escapeString msg).data.count '\n' = 0 :=
    List.count_eq_zero.mpr (escapeList_no_nl msg.data)
  show ((("\x7b" ++ ("\"" ++ escapeString "error" ++ "\": " ++
      ("\"" ++ escapeString msg ++ "\"")) ++ "\x7d")) ++ "\n").data.count '\n' = 1
  simp only [count_nl_append]
  rw [hesc]
  decide

/-- Every response line is newline-terminated. -/
theorem responseWire_terminated (r : Response) :
    (responseWire r).data.getLast? = some '\n' := by
  unfold responseWire
  rw [String.data_append]
  exact List.getLast?_concat _

/-- C6 counterexample: the line `123` cannot be decoded into a valid
command, yet the server does not reply with an error object — the decoded
value is not a dict, `cmd.get` raises, and the connection dies with no
response written, swallowing any further commands. -/
theorem C6_counterexample_scalar_line_kills_connection :
    processLine demoManager "123" = LineResult.crash ∧
    runSession demoManager ["123", "status"] = ([], demoManager) :=
  ⟨rfl, rfl⟩

/-- C6 (amended): for every non-empty line that fails structured decode,
the fallback tokenizer always produces a command; when its lowercased
leading token is not a recognized action, the server recovers within that
command — it writes exactly one newline-terminated line containing an
error object, makes no state change, emits no notification, and the
connection remains open for further commands.  (Unrestricted, the claim
fails: a line that decodes as structured text but not to a dict, such as
`123`, raises and closes the connection without a response.) -/
theorem C6_amended_parse_error_recovery (m : StreamManager) (raw : String)
    (rest : List String) (a : String)
    (hne : pyStrip raw ≠ "")
    (hjson : jsonLoads (pyStrip raw) = none)
    (ha : a = pyLower ((pySplit (pyStrip raw).data).headD ""))
    (hbad : a ≠ "status" ∧ a ≠ "live" ∧ a ≠ "standby" ∧ a ≠ "toggle") :
    processLine m raw =
      LineResult.reply (Response.error ("unknown action: " ++ a)) m [] ∧
    runSession m (raw :: rest) =
      (responseWire (Response.error ("unknown action: " ++ a)) :: (runSession m rest).1,
        (runSession m rest).2) ∧
    (responseWire (Response.error ("unknown action: " ++ a))).data.count '\n' = 1 ∧
    (responseWire (Response.error ("unknown action: " ++ a))).data.getLast? =
      some '\n' := by
  obtain ⟨c, cs, hdata, hcws⟩ := pyStrip_shape raw hne
  have hsplit : ∃ tok r2, pySplit (pyStrip raw).data = tok :: r2 := by
    rw [hdata]
    simp only [pySplit, pySplitAux, hcws, Bool.false_eq_true, if_false]
    exact pySplitAux_ne_nil cs [c] (by simp)
  obtain ⟨tok, r2, hsp⟩ := hsplit
  have hcmd : cmdOfLine (pyStrip raw) = some (pyLower tok, Json.str (r2.headD "")) := by
    unfold cmdOfLine parseLine
    rw [hjson, hsp]
    rfl
  have hatok : a = pyLower tok := by
    rw [hsp] at ha
    exact ha
  subst hatok
  have hproc : processLine m raw =
      LineResult.reply (Response.error ("unknown action: " ++ pyLower tok)) m [] := by
    unfold processLine
    simp only [hne, if_false, hcmd, dispatchResult]
    unfold dispatch
    rw [if_neg hbad.1, if_neg (by simp [hbad.2.1, hbad.2.2.1, hbad.2.2.2])]
  refine ⟨hproc, ?_, error_wire_count _, responseWire_terminated _⟩
  conv_lhs => rw [runSession]
  rw [hproc]

/-- C6 witness: the malformed line `hello c1` is answered inline with one
terminated error line and the session continues with the next command. -/
theorem C6_amended_parse_error_recovery_witness :
    processLine demoManager "hello c1" =
      LineResult.reply (Response.error ("unknown action: " ++ "hello"))
        demoManager [] ∧
    runSession demoManager ["hello c1", "status"] =
      (responseWire (Response.error ("unknown action: " ++ "hello")) ::
          (runSession demoManager ["status"]).1,
        (runSession demoManager ["status"]).2) ∧
    (responseWire (Response.error ("unknown action: " ++ "hello"))).data.count '\n' = 1 ∧
    (responseWire (Response.error ("unknown action: " ++ "hello"))).data.getLast? =
      some '\n' :=
  C6_amended_parse_error_recovery demoManager "hello c1" ["status"] "hello"
    (by decide) rfl rfl (by refine ⟨?_, ?_, ?_, ?_⟩ <;> decide)
